import Mathlib

/-!
Verification of the device-selection and context-teardown core of the
`rtrt` renderer (src/src/vulkan/device.rs and src/src/vulkan/render_pass.rs).

The driver/surface collaborators are modelled as a record of pure response
functions (`SurfaceCtx`): the spec treats every capability query as a pure
query with no side effects, and the Rust code only ever takes them through
shared references. Fallible driver calls return `Except Err`, mirroring
`anyhow::Result`. Handles (physical devices, logical devices, queues,
formats, present modes) are abstracted to `Nat`; queue-family flags are
abstracted to the one flag the code inspects (graphics capability).
-/

set_option autoImplicit false

namespace Rtrt

abbrev PhysicalDevice := Nat
abbrev LogicalDevice := Nat
abbrev Queue := Nat
abbrev ExtName := String
abbrev LayerName := String
abbrev SurfaceFormat := Nat
abbrev PresentMode := Nat
abbrev SurfaceCapabilities := Nat
abbrev DeviceName := String

/-- Errors: `noSuitableDevice` models the `anyhow!("No suitable physical device")`
error; `driver c` models an arbitrary error produced by an underlying driver call. -/
inductive Err where
  | noSuitableDevice
  | driver (code : Nat)
deriving DecidableEq

/-- One entry of `get_physical_device_queue_family_properties`: the queue count
and whether `queue_flags` contains `GRAPHICS` (the only flag the code reads). -/
structure QueueFamilyProps where
  queue_count : Nat
  graphics : Bool
deriving DecidableEq

structure SwapchainSupportDetails where
  capabilities : SurfaceCapabilities
  formats : List SurfaceFormat
  present_modes : List PresentMode
deriving DecidableEq

structure DeviceQueueCreateInfo where
  queue_family_index : Nat
  queue_priorities : List Rat
deriving DecidableEq

/-- `vk::PhysicalDeviceFeatures::builder().build()` with no setters applied:
the baseline feature set with no optional features enabled. -/
inductive PhysicalDeviceFeatures where
  | baseline
deriving DecidableEq

/-- The `DeviceCreateInfo` assembled by `create_logical_device`, including the
`PhysicalDeviceVulkanMemoryModelFeatures` entry pushed onto its pNext chain. -/
structure DeviceCreateInfo where
  queue_create_infos : List DeviceQueueCreateInfo
  enabled_extension_names : List ExtName
  enabled_features : PhysicalDeviceFeatures
  enabled_layer_names : List LayerName
  vulkan_memory_model : Bool
deriving DecidableEq

structure PhysicalDeviceInfo where
  device : PhysicalDevice
  graphics_family_index : Nat
  present_family_index : Nat
  dedup_family_indices : List Nat
  debug_device_name : DeviceName
deriving DecidableEq

structure LogicalDeviceInfo where
  device : LogicalDevice
  graphics_queue : Queue
  present_queue : Queue
deriving DecidableEq

/-- The surface context together with the external driver interface it exposes
(instance handle, surface handle, and the capability queries made through them).
Every field is a pure response function: the spec's external-interface contract
says the core treats these as pure queries. -/
structure SurfaceCtx where
  enumerate_physical_devices : Except Err (List PhysicalDevice)
  queue_family_props : PhysicalDevice → List QueueFamilyProps
  surface_support : PhysicalDevice → Nat → Except Err Bool
  surface_capabilities : PhysicalDevice → Except Err SurfaceCapabilities
  surface_formats : PhysicalDevice → Except Err (List SurfaceFormat)
  surface_present_modes : PhysicalDevice → Except Err (List PresentMode)
  extension_props : PhysicalDevice → Except Err (List ExtName)
  device_name : PhysicalDevice → DeviceName
  layer_name_pointers : List LayerName
  create_device : PhysicalDevice → DeviceCreateInfo → Except Err LogicalDevice
  get_device_queue : LogicalDevice → Nat → Nat → Queue

/-- `get_required_device_extensions`: the fixed required-extension list
(`Swapchain::name()` is the `VK_KHR_swapchain` extension). -/
def get_required_device_extensions : List ExtName :=
  ["VK_KHR_swapchain"]

/-- `current_swapchain_support_impl`: queries capabilities, formats and present
modes for the (device, surface) pair, propagating any query error. -/
def current_swapchain_support_impl (s : SurfaceCtx) (d : PhysicalDevice) :
    Except Err SwapchainSupportDetails :=
  match s.surface_capabilities d with
  | .error e => .error e
  | .ok capabilities =>
    match s.surface_formats d with
    | .error e => .error e
    | .ok formats =>
      match s.surface_present_modes d with
      | .error e => .error e
      | .ok present_modes =>
        .ok { capabilities := capabilities, formats := formats, present_modes := present_modes }

/-- `test_required_extensions`: queries the device's extension list and checks
that every required extension is contained in it. -/
def test_required_extensions (s : SurfaceCtx) (d : PhysicalDevice)
    (required_device_extensions : List ExtName) : Except Err Bool :=
  match s.extension_props d with
  | .error e => .error e
  | .ok extension_names =>
    .ok (required_device_extensions.all (fun x => extension_names.contains x))

/-- The loop of `find_queue_families`: walks the (already filtered) family list,
recording the first graphics-capable position and the first present-capable
position, querying present support per family and returning as soon as both are
set. The `index` argument is the running position produced by `.enumerate()`. -/
def fqf_loop (s : SurfaceCtx) (d : PhysicalDevice) :
    List QueueFamilyProps → Nat → Option Nat → Option Nat →
    Except Err (Option (Nat × Nat))
  | [], _, _, _ => .ok none
  | family :: rest, index, graphics, present =>
    let graphics := if family.graphics && graphics.isNone then some index else graphics
    match s.surface_support d index with
    | .error e => .error e
    | .ok present_support =>
      let present := if present_support && present.isNone then some index else present
      match graphics, present with
      | some g, some p => .ok (some (g, p))
      | g, p => fqf_loop s d rest (index + 1) g p

/-- `find_queue_families`: filters the queue-family list to families with a
nonzero queue count, then scans it with `fqf_loop` starting from position 0
with no family recorded yet. -/
def find_queue_families (s : SurfaceCtx) (d : PhysicalDevice) :
    Except Err (Option (Nat × Nat)) :=
  fqf_loop s d ((s.queue_family_props d).filter (fun f => decide (0 < f.queue_count))) 0 none none

/-- The deduplicated family-index list built inside `select_physical_device`. -/
def dedup_family_indices (g p : Nat) : List Nat :=
  if g = p then [g] else [g, p]

/-- The body of the `filter_map` closure in `select_physical_device`: given the
precomputed `find_queue_families` result for `d`, reject the candidate (`none`)
unless queue families resolved, the required extensions are supported (the
extension query error being swallowed by `.ok()?`), and the swapchain support is
adequate (the swapchain query error likewise swallowed); otherwise build the
`PhysicalDeviceInfo`. -/
def eval_candidate (s : SurfaceCtx) (required_device_extensions : List ExtName)
    (d : PhysicalDevice) (queues : Option (Nat × Nat)) : Option PhysicalDeviceInfo :=
  match queues with
  | none => none
  | some (graphics_family_index, present_family_index) =>
    match test_required_extensions s d required_device_extensions with
    | .error _ => none
    | .ok supports_required_extensions =>
      if !supports_required_extensions then none else
      match current_swapchain_support_impl s d with
      | .error _ => none
      | .ok ssd =>
        if !(!ssd.formats.isEmpty && !ssd.present_modes.isEmpty) then none else
        some { device := d
             , graphics_family_index := graphics_family_index
             , present_family_index := present_family_index
             , dedup_family_indices := dedup_family_indices graphics_family_index present_family_index
             , debug_device_name := s.device_name d }

/-- The first pass of `select_physical_device`: `devices.into_iter().map(|d|
Ok((d, find_queue_families(..)?))).collect::<Result<Vec<_>>>()` — pairs every
device with its queue-family result, stopping at the first query error. -/
def collect_device_queues (s : SurfaceCtx) :
    List PhysicalDevice → Except Err (List (PhysicalDevice × Option (Nat × Nat)))
  | [] => .ok []
  | d :: rest =>
    match find_queue_families s d with
    | .error e => .error e
    | .ok q =>
      match collect_device_queues s rest with
      | .error e => .error e
      | .ok others => .ok ((d, q) :: others)

/-- The `.filter_map(..).next()` of `select_physical_device`: the first candidate
accepted by `eval_candidate`, evaluated lazily in enumeration order. -/
def first_accepted (s : SurfaceCtx) (required_device_extensions : List ExtName) :
    List (PhysicalDevice × Option (Nat × Nat)) → Option PhysicalDeviceInfo
  | [] => none
  | (d, q) :: rest =>
    match eval_candidate s required_device_extensions d q with
    | some info => some info
    | none => first_accepted s required_device_extensions rest

/-- `select_physical_device`: enumerate devices, pair each with its queue-family
result (propagating errors), then return the first accepted candidate or the
`No suitable physical device` error. -/
def select_physical_device (s : SurfaceCtx) (required_device_extensions : List ExtName) :
    Except Err PhysicalDeviceInfo :=
  match s.enumerate_physical_devices with
  | .error e => .error e
  | .ok devices =>
    match collect_device_queues s devices with
    | .error e => .error e
    | .ok devices_and_queues =>
      match first_accepted s required_device_extensions devices_and_queues with
      | some info => .ok info
      | none => .error .noSuitableDevice

/-- The `[1.0f32]` priority array: a single queue at maximum priority. -/
def queue_priorities : List Rat := [1]

/-- The `DeviceCreateInfo` assembled by `create_logical_device`: one
queue-creation descriptor per deduplicated family index, the required extension
set, the default (baseline) feature set, the instance layers, and the
`PhysicalDeviceVulkanMemoryModelFeatures` entry with `vulkan_memory_model(true)`. -/
def mk_device_create_info (physical_info : PhysicalDeviceInfo)
    (layer_name_pointers : List LayerName)
    (required_device_extensions : List ExtName) : DeviceCreateInfo :=
  { queue_create_infos := physical_info.dedup_family_indices.map (fun index =>
      { queue_family_index := index, queue_priorities := queue_priorities })
  , enabled_extension_names := required_device_extensions
  , enabled_features := PhysicalDeviceFeatures.baseline
  , enabled_layer_names := layer_name_pointers
  , vulkan_memory_model := true }

/-- `create_logical_device`: request the logical context with the assembled
create info, then retrieve the graphics and present queue handles, both at
queue index 0 of their respective family. -/
def create_logical_device (s : SurfaceCtx) (physical_info : PhysicalDeviceInfo)
    (layer_name_pointers : List LayerName)
    (required_device_extensions : List ExtName) : Except Err LogicalDeviceInfo :=
  match s.create_device physical_info.device
      (mk_device_create_info physical_info layer_name_pointers required_device_extensions) with
  | .error e => .error e
  | .ok device =>
    .ok { device := device
        , graphics_queue := s.get_device_queue device physical_info.graphics_family_index 0
        , present_queue := s.get_device_queue device physical_info.present_family_index 0 }

structure DeviceCtx where
  surface_ctx : SurfaceCtx
  physical_info : PhysicalDeviceInfo
  logical_info : LogicalDeviceInfo

/-- `DeviceCtx::new`: select a physical device with the required extension list,
then open the logical context on it. -/
def DeviceCtx.new (s : SurfaceCtx) : Except Err DeviceCtx :=
  match select_physical_device s get_required_device_extensions with
  | .error e => .error e
  | .ok physical_info =>
    match create_logical_device s physical_info s.layer_name_pointers
        get_required_device_extensions with
    | .error e => .error e
    | .ok logical_info =>
      .ok { surface_ctx := s, physical_info := physical_info, logical_info := logical_info }

/-- `DeviceCtx::current_swapchain_support`: re-runs the selection-time probe
against the stored surface context and physical device. -/
def DeviceCtx.current_swapchain_support (ctx : DeviceCtx) :
    Except Err SwapchainSupportDetails :=
  current_swapchain_support_impl ctx.surface_ctx ctx.physical_info.device

/-!
## Spec-side definitions

The following definitions are written from the words of the spec and the
claims (not from the code); the theorems compare them with the translated
code above.
-/

/-- Claim wording (4.1a): the first family index, scanning the device's
queue-family list in index order, whose flags include graphics capability. -/
def claim_first_graphics_from : List QueueFamilyProps → Nat → Option Nat
  | [], _ => none
  | f :: rest, idx => if f.graphics then some idx else claim_first_graphics_from rest (idx + 1)

/-- Claim wording (4.1a): the first family index, scanning the device's
queue-family list in index order, that supports presentation to the bound
surface (`sp` is the per-family present-support answer). -/
def claim_first_present_from (sp : Nat → Bool) : List QueueFamilyProps → Nat → Option Nat
  | [], _ => none
  | _ :: rest, idx => if sp idx then some idx else claim_first_present_from sp rest (idx + 1)

/-- Claim wording (4.1a): `None` unless BOTH a graphics family and a present
family are found; the two indices may be equal. -/
def combine_queues : Option Nat → Option Nat → Option (Nat × Nat)
  | some g, some p => some (g, p)
  | _, _ => none

/-- The claim's description of `find_queue_families` as a function of the
device's full queue-family list and present-support answers. -/
def claim_queue_families (props : List QueueFamilyProps) (sp : Nat → Bool) : Option (Nat × Nat) :=
  combine_queues (claim_first_graphics_from props 0) (claim_first_present_from sp props 0)

/-- First-match accumulator: an already-recorded index always wins. -/
def opt_first : Option Nat → Option Nat → Option Nat
  | some x, _ => some x
  | none, b => b

/-- The value carried by a successful `find_queue_families` call
(`none` if the call failed). -/
def fqf_val (s : SurfaceCtx) (d : PhysicalDevice) : Option (Nat × Nat) :=
  match find_queue_families s d with
  | .ok q => q
  | .error _ => none

/-- Whether the `find_queue_families` probe itself succeeds for `d`. -/
def fqf_ok (s : SurfaceCtx) (d : PhysicalDevice) : Bool :=
  match find_queue_families s d with
  | .ok _ => true
  | .error _ => false

/-- A candidate is accepted when the `filter_map` body of
`select_physical_device` keeps it (given its own queue-family probe result). -/
def accepted (s : SurfaceCtx) (req : List ExtName) (d : PhysicalDevice) : Bool :=
  (eval_candidate s req d (fqf_val s d)).isSome

/-- Adequacy predicate 1 (claim wording): queue families resolved. -/
def queue_families_resolved (s : SurfaceCtx) (d : PhysicalDevice) : Bool :=
  match find_queue_families s d with
  | .ok (some _) => true
  | _ => false

/-- Adequacy predicate 2 (claim wording): all required extensions supported
(the successful extension query reports every required name). -/
def extensions_supported (s : SurfaceCtx) (d : PhysicalDevice) (req : List ExtName) : Bool :=
  match s.extension_props d with
  | .ok names => req.all (fun x => names.contains x)
  | .error _ => false

/-- Adequacy predicate 3 (claim wording): at least one surface format and at
least one present mode reported. -/
def swapchain_adequate (s : SurfaceCtx) (d : PhysicalDevice) : Bool :=
  match current_swapchain_support_impl s d with
  | .ok ssd => !ssd.formats.isEmpty && !ssd.present_modes.isEmpty
  | .error _ => false

/-- The claim's three-way adequacy conjunction. -/
def claim_adequate (s : SurfaceCtx) (d : PhysicalDevice) (req : List ExtName) : Bool :=
  queue_families_resolved s d && extensions_supported s d req && swapchain_adequate s d

/-!
## Concrete environments for witnesses and counterexamples
-/

/-- A driver environment in which every query succeeds and every device is
adequate: one graphics-capable family with present support, the swapchain
extension present, one format and one present mode. -/
def base_env : SurfaceCtx :=
  { enumerate_physical_devices := .ok []
  , queue_family_props := fun _ => [{ queue_count := 1, graphics := true }]
  , surface_support := fun _ _ => .ok true
  , surface_capabilities := fun _ => .ok 0
  , surface_formats := fun _ => .ok [7]
  , surface_present_modes := fun _ => .ok [3]
  , extension_props := fun _ => .ok ["VK_KHR_swapchain"]
  , device_name := fun _ => "gpu"
  , layer_name_pointers := []
  , create_device := fun _ _ => .ok 42
  , get_device_queue := fun dev fam _ => dev + fam }

/-- Three devices; device 0 reports no surface formats (inadequate), devices
1 and 2 are both adequate — the first adequate device is 1. -/
def env_ok : SurfaceCtx :=
  { base_env with
    enumerate_physical_devices := .ok [0, 1, 2]
  , surface_formats := fun d => if d = 0 then .ok [] else .ok [7] }

/-- Device whose first listed queue family has a zero queue count (and no
graphics flag) while the second family is graphics-capable; presentation is
supported exactly by family index 1. -/
def env_zero_count : SurfaceCtx :=
  { base_env with
    queue_family_props := fun _ => [{ queue_count := 0, graphics := false },
                                    { queue_count := 1, graphics := true }]
  , surface_support := fun _ i => .ok (decide (i = 1)) }

/-- Device with two single-queue families, the second graphics-capable, and
presentation supported exactly by family index 0. -/
def env_two_families : SurfaceCtx :=
  { base_env with
    queue_family_props := fun _ => [{ queue_count := 1, graphics := false },
                                    { queue_count := 1, graphics := true }]
  , surface_support := fun _ i => .ok (decide (i = 0)) }

/-- Two devices: device 0 is fully adequate and first in enumeration order;
device 1's per-family present-support query fails. -/
def env_poisoned_second : SurfaceCtx :=
  { base_env with
    enumerate_physical_devices := .ok [0, 1]
  , surface_support := fun d _ => if d = 1 then .error (.driver 7) else .ok true }

/-- Two devices: device 10's present-support probe fails, device 11 is fully
adequate. -/
def env_poisoned_first : SurfaceCtx :=
  { base_env with
    enumerate_physical_devices := .ok [10, 11]
  , surface_support := fun d _ => if d = 10 then .error (.driver 3) else .ok true }

/-- One device whose extension query itself fails (a swallowed probe failure);
everything else succeeds. -/
def env_ext_query_fails : SurfaceCtx :=
  { base_env with
    enumerate_physical_devices := .ok [20]
  , extension_props := fun _ => .error (.driver 9) }

def info_family2 : PhysicalDeviceInfo :=
  { device := 5, graphics_family_index := 2, present_family_index := 2
  , dedup_family_indices := [2], debug_device_name := "gpu" }

def info_device1 : PhysicalDeviceInfo :=
  { device := 1, graphics_family_index := 0, present_family_index := 0
  , dedup_family_indices := [0], debug_device_name := "gpu" }

def ssd_base : SwapchainSupportDetails :=
  { capabilities := 0, formats := [7], present_modes := [3] }

def ctx_base : DeviceCtx :=
  { surface_ctx := base_env
  , physical_info := info_device1
  , logical_info := { device := 42, graphics_queue := 42, present_queue := 42 } }

/-!
## Context chain teardown model

The chain Surface ← Device ← Swapchain ← RenderPass is built from
reference-counted (`Rc`) shared contexts: each node's struct holds an
`Rc` to its parent. The model below gives the standard `Rc` drop semantics:
releasing a handle decrements the node's strong count; when the count hits
zero the node's `Drop` implementation runs (emitting a native-destroy event
into a trace) and then the node's `Rc` field to its parent is released in turn.

`RenderPassCtx`'s and `DeviceCtx`'s destructors are translated from
`render_pass.rs` and `device.rs`. `SurfaceCtx`'s and `SwapchainCtx`'s
destructors are modelled from the spec: `surface.rs` and `swapchain.rs` are
declared in `mod.rs` but their sources are not in the repository snapshot;
the spec's ContextChain contract says each releases its own native resource
using the parent's still-live handle before releasing the parent reference.
A destructor that would need a handle of an already-destroyed node emits a
`use_after_free` marker instead of a destroy event.
-/

inductive Node where
  | surface
  | device
  | swapchain
  | renderPass
deriving DecidableEq, Fintype

inductive TeardownEv where
  | device_wait_idle
  | destroy (n : Node)
  | use_after_free (n : Node)
deriving DecidableEq

structure RcState where
  counts : Node → Nat
  trace : List TeardownEv

/-- Decrement the strong count of `n` (one `Rc` handle released). -/
def dec_count (n : Node) (st : RcState) : RcState :=
  { st with counts := fun m => if m = n then st.counts n - 1 else st.counts m }

/-- A destructor releases the node's native resource; if the handle it needs
is no longer live, that is a use-after-free. -/
def note_destroy (n : Node) (needed_alive : Bool) (st : RcState) : RcState :=
  { st with trace := st.trace ++ [if needed_alive then TeardownEv.destroy n else TeardownEv.use_after_free n] }

/-- Release one shared reference to the surface context. Its destructor
(spec-modelled) destroys the surface through the instance, which is external
to the chain and outlives it. -/
def drop_surface (st : RcState) : RcState :=
  let st := dec_count Node.surface st
  if st.counts Node.surface = 0 then
    note_destroy Node.surface true st
  else st

/-- Release one shared reference to the device context. Its destructor
(`impl Drop for DeviceCtx`) calls `destroy_device` on its own logical handle,
then its `Rc<SurfaceCtx>` field is released. -/
def drop_device (st : RcState) : RcState :=
  let st := dec_count Node.device st
  if st.counts Node.device = 0 then
    drop_surface (note_destroy Node.device true st)
  else st

/-- Release one shared reference to the swapchain context. Its destructor
(spec-modelled) destroys the swapchain using the device context's handle,
then its `Rc<DeviceCtx>` field is released. -/
def drop_swapchain (st : RcState) : RcState :=
  let st := dec_count Node.swapchain st
  if st.counts Node.swapchain = 0 then
    drop_device (note_destroy Node.swapchain (st.counts Node.device != 0) st)
  else st

/-- Release one shared reference to the render-pass context. Its destructor
(`impl Drop for RenderPassCtx`) calls `destroy_render_pass` through
`swapchain_ctx.device_ctx`, then its `Rc<SwapchainCtx>` field is released. -/
def drop_render_pass (st : RcState) : RcState :=
  let st := dec_count Node.renderPass st
  if st.counts Node.renderPass = 0 then
    drop_swapchain (note_destroy Node.renderPass (st.counts Node.swapchain != 0) st)
  else st

def drop_handle : Node → RcState → RcState
  | Node.surface => drop_surface
  | Node.device => drop_device
  | Node.swapchain => drop_swapchain
  | Node.renderPass => drop_render_pass

/-- Strong counts right after the chain is constructed and all four `Rc`
handles returned by the constructors are still held by the caller: every
inner node is held by the caller and by its child; the leaf only by the
caller. -/
def initial_counts : Node → Nat
  | Node.surface => 2
  | Node.device => 2
  | Node.swapchain => 2
  | Node.renderPass => 1

def initial_state : RcState :=
  { counts := initial_counts, trace := [] }

/-- Drop the caller's four shared handles in the given order. -/
def run_drops (order : List Node) : RcState :=
  order.foldl (fun st n => drop_handle n st) initial_state

/-- The sequence of native-resource releases recorded in a trace. -/
def release_order (st : RcState) : List Node :=
  st.trace.filterMap (fun e => match e with | TeardownEv.destroy n => some n | _ => none)

def has_use_after_free (st : RcState) : Bool :=
  st.trace.any (fun e => match e with | TeardownEv.use_after_free _ => true | _ => false)

/-- Modelled from the spec: the application's teardown orchestration (the
caller of `DeviceCtx::wait_for_idle` and owner of the four shared handles) is
not part of the repository snapshot. Per the spec's idle-synchronization
contract, it blocks on `wait_for_idle` (a `device_wait_idle` on the logical
context) before releasing its handles. -/
def teardown_run (order : List Node) : RcState :=
  order.foldl (fun st n => drop_handle n st)
    { counts := initial_counts, trace := [TeardownEv.device_wait_idle] }

/-- `true` when the first occurrence of `a` comes strictly before an
occurrence of `b`. -/
def precedes_in (a b : TeardownEv) : List TeardownEv → Bool
  | [] => false
  | e :: rest => if e = a then rest.contains b else if e = b then false else precedes_in a b rest

/-- C1: for the Active chain Surface ← Device ← Swapchain ← RenderPass,
dropping the caller's four shared handles in any order (any duplicate-free
sequence of the four nodes) releases the native resources in the order
RenderPass, Swapchain, Device, Surface, and every destructor runs while the
handle it needs is still live (no use-after-free marker is ever emitted). -/
theorem teardown_release_order :
    ∀ a b c d : Node, ([a, b, c, d]).Nodup →
      release_order (run_drops [a, b, c, d]) =
        [Node.renderPass, Node.swapchain, Node.device, Node.surface] ∧
      has_use_after_free (run_drops [a, b, c, d]) = false := by
  decide

/-- C1 witness: the release order holds in particular when the caller drops
its handles in construction order. -/
theorem teardown_release_order_witness :
    release_order (run_drops [Node.surface, Node.device, Node.swapchain, Node.renderPass]) =
      [Node.renderPass, Node.swapchain, Node.device, Node.surface] ∧
    has_use_after_free (run_drops [Node.surface, Node.device, Node.swapchain, Node.renderPass]) = false :=
  teardown_release_order Node.surface Node.device Node.swapchain Node.renderPass (by decide)

/-- C8: in the spec-modelled teardown sequence, the explicit wait-until-idle
on the logical context happens strictly before the root logical context's
native resource is destroyed, whatever order the shared handles are dropped in. -/
theorem teardown_wait_before_destroy :
    ∀ a b c d : Node, ([a, b, c, d]).Nodup →
      precedes_in TeardownEv.device_wait_idle (TeardownEv.destroy Node.device)
        (teardown_run [a, b, c, d]).trace = true := by
  decide

/-- C8 witness: in particular for the construction-order drop sequence. -/
theorem teardown_wait_before_destroy_witness :
    precedes_in TeardownEv.device_wait_idle (TeardownEv.destroy Node.device)
      (teardown_run [Node.surface, Node.device, Node.swapchain, Node.renderPass]).trace = true :=
  teardown_wait_before_destroy Node.surface Node.device Node.swapchain Node.renderPass (by decide)

/-!
## Helper lemmas
-/

lemma eval_candidate_some_eq {s : SurfaceCtx} {req : List ExtName} {d : PhysicalDevice}
    {g p : Nat} {info : PhysicalDeviceInfo}
    (h : eval_candidate s req d (some (g, p)) = some info) :
    info = { device := d, graphics_family_index := g, present_family_index := p
           , dedup_family_indices := dedup_family_indices g p
           , debug_device_name := s.device_name d } := by
  simp only [eval_candidate] at h
  cases ht : test_required_extensions s d req with
  | error e => simp [ht] at h
  | ok supports =>
    cases supports with
    | false => simp [ht] at h
    | true =>
      cases hc : current_swapchain_support_impl s d with
      | error e => simp [ht, hc] at h
      | ok ssd =>
        obtain ⟨caps, fmts, pms⟩ := ssd
        cases fmts <;> cases pms <;> simp_all [ht, hc]

lemma eval_candidate_device {s : SurfaceCtx} {req : List ExtName} {d : PhysicalDevice}
    {q : Option (Nat × Nat)} {info : PhysicalDeviceInfo}
    (h : eval_candidate s req d q = some info) : info.device = d := by
  cases q with
  | none => simp [eval_candidate] at h
  | some gp =>
    obtain ⟨g, p⟩ := gp
    rw [eval_candidate_some_eq h]

lemma accepted_eq_adequate (s : SurfaceCtx) (req : List ExtName) (d : PhysicalDevice) :
    accepted s req d = claim_adequate s d req := by
  unfold accepted claim_adequate queue_families_resolved extensions_supported swapchain_adequate
  cases hf : find_queue_families s d with
  | error e => simp [eval_candidate, fqf_val, hf]
  | ok q =>
    cases q with
    | none => simp [eval_candidate, fqf_val, hf]
    | some gp =>
      obtain ⟨g, p⟩ := gp
      cases he : s.extension_props d with
      | error e => simp [eval_candidate, fqf_val, hf, test_required_extensions, he]
      | ok names =>
        have hsup : test_required_extensions s d req =
            .ok (req.all (fun x => names.contains x)) := by
          simp [test_required_extensions, he]
        simp only [he]
        cases hb : req.all (fun x => names.contains x) with
        | false =>
          simp only [eval_candidate, fqf_val, hf, hsup, hb]
          simp
        | true =>
          cases hc : current_swapchain_support_impl s d with
          | error e =>
            simp only [eval_candidate, fqf_val, hf, hsup, hb, hc]
            simp
          | ok ssd =>
            simp only [eval_candidate, fqf_val, hf, hsup, hb, hc]
            cases hfmt : !ssd.formats.isEmpty && !ssd.present_modes.isEmpty <;>
              simp [hfmt]

lemma collect_device_queues_ok (s : SurfaceCtx) :
    ∀ ds : List PhysicalDevice, (∀ d ∈ ds, fqf_ok s d = true) →
      collect_device_queues s ds = .ok (ds.map (fun d => (d, fqf_val s d))) := by
  intro ds
  induction ds with
  | nil => intro _; rfl
  | cons d rest ih =>
    intro h
    have hd := h d (List.mem_cons_self d rest)
    unfold fqf_ok at hd
    cases hf : find_queue_families s d with
    | error e => rw [hf] at hd; cases hd
    | ok q =>
      unfold collect_device_queues
      rw [hf, ih (fun x hx => h x (List.mem_cons_of_mem d hx))]
      simp [fqf_val, hf]

lemma first_accepted_eq_find (s : SurfaceCtx) (req : List ExtName) :
    ∀ ds : List PhysicalDevice,
      first_accepted s req (ds.map (fun d => (d, fqf_val s d))) =
        match ds.find? (fun d => accepted s req d) with
        | some d => eval_candidate s req d (fqf_val s d)
        | none => none := by
  intro ds
  induction ds with
  | nil => rfl
  | cons d rest ih =>
    simp only [List.map_cons, first_accepted]
    cases hev : eval_candidate s req d (fqf_val s d) with
    | some info =>
      have hacc : accepted s req d = true := by simp [accepted, hev]
      rw [List.find?_cons_of_pos _ hacc]
      exact hev.symm
    | none =>
      have hacc : accepted s req d = false := by simp [accepted, hev]
      rw [List.find?_cons_of_neg _ (by simp [hacc])]
      exact ih

/-!
## Claim theorems: device selection
-/

/-- C2 (amended): provided the queue-family probe itself succeeds for every
enumerated device, `select_physical_device` returns the first device in
enumeration order satisfying the three adequacy predicates (never a later
one), and a candidate is accepted exactly when all three predicates hold. -/
theorem select_first_adequate (s : SurfaceCtx) (req : List ExtName)
    (ds : List PhysicalDevice) (d₀ : PhysicalDevice)
    (henum : s.enumerate_physical_devices = .ok ds)
    (hq : ∀ d ∈ ds, fqf_ok s d = true)
    (hfirst : ds.find? (fun d => claim_adequate s d req) = some d₀) :
    (∃ info, select_physical_device s req = .ok info ∧ info.device = d₀) ∧
    (∀ d, accepted s req d = claim_adequate s d req) := by
  have hfind : ds.find? (fun d => accepted s req d) = some d₀ := by
    simpa only [accepted_eq_adequate] using hfirst
  constructor
  · unfold select_physical_device
    simp only [henum, collect_device_queues_ok s ds hq, first_accepted_eq_find, hfind]
    have hacc : accepted s req d₀ = true := List.find?_some hfind
    unfold accepted at hacc
    rw [Option.isSome_iff_exists] at hacc
    obtain ⟨info, hev⟩ := hacc
    refine ⟨info, ?_, eval_candidate_device hev⟩
    rw [hev]
  · intro d
    exact accepted_eq_adequate s req d

/-- C2 witness: in a three-device enumeration where device 0 is inadequate
(no surface formats) and devices 1 and 2 are both adequate, selection returns
device 1. -/
theorem select_first_adequate_witness :
    (∃ info, select_physical_device env_ok get_required_device_extensions = .ok info ∧
      info.device = 1) ∧
    (∀ d, accepted env_ok get_required_device_extensions d =
      claim_adequate env_ok d get_required_device_extensions) :=
  select_first_adequate env_ok get_required_device_extensions [0, 1, 2] 1 rfl
    (by decide) (by decide)

/-- C2 counterexample: an enumeration whose first device is adequate, yet
`select_physical_device` returns a driver error instead of that device,
because the *second* device's queue-family probe fails and that failure
propagates out of the whole search. -/
theorem select_first_adequate_cex :
    env_poisoned_second.enumerate_physical_devices = .ok [0, 1] ∧
    claim_adequate env_poisoned_second 0 get_required_device_extensions = true ∧
    ([0, 1].find? (fun d => claim_adequate env_poisoned_second d get_required_device_extensions)
      = some 0) ∧
    select_physical_device env_poisoned_second get_required_device_extensions =
      .error (Err.driver 7) :=
  ⟨rfl, by decide, by decide, rfl⟩

/-- C4 (amended): extension-support and swapchain-support probe failures are
swallowed into per-candidate rejection, so when every queue-family probe
succeeds the only error `select_physical_device` can return is
`noSuitableDevice` — no probe failure of a candidate aborts the search. -/
theorem probe_failure_policy (s : SurfaceCtx) (req : List ExtName)
    (ds : List PhysicalDevice) (e : Err)
    (henum : s.enumerate_physical_devices = .ok ds)
    (hq : ∀ d ∈ ds, fqf_ok s d = true)
    (herr : select_physical_device s req = .error e) :
    e = Err.noSuitableDevice := by
  unfold select_physical_device at herr
  simp only [henum, collect_device_queues_ok s ds hq] at herr
  cases hfa : first_accepted s req (ds.map (fun d => (d, fqf_val s d))) with
  | some info => rw [hfa] at herr; exact Except.noConfusion herr
  | none => rw [hfa] at herr; exact (Except.error.inj herr).symm

/-- C4 witness: a device whose extension query itself fails is merely
rejected, and the search ends with `noSuitableDevice` rather than the
driver's error. -/
theorem probe_failure_policy_witness :
    Err.noSuitableDevice = Err.noSuitableDevice ∧
    select_physical_device env_ext_query_fails get_required_device_extensions =
      .error Err.noSuitableDevice :=
  ⟨probe_failure_policy env_ext_query_fails get_required_device_extensions [20]
      Err.noSuitableDevice rfl (by decide) rfl, rfl⟩

/-- C4 counterexample: device 10's present-support probe fails and that
failure aborts the whole search with the driver's error, even though device
11 later in the enumeration is fully adequate. -/
theorem probe_failure_cex :
    claim_adequate env_poisoned_first 11 get_required_device_extensions = true ∧
    env_poisoned_first.enumerate_physical_devices = .ok [10, 11] ∧
    select_physical_device env_poisoned_first get_required_device_extensions =
      .error (Err.driver 3) :=
  ⟨by decide, rfl, rfl⟩

/-!
## Claim theorems: queue-family scan
-/

lemma fqf_loop_eq_claim (s : SurfaceCtx) (d : PhysicalDevice) (sp : Nat → Bool)
    (hsp : ∀ i, s.surface_support d i = .ok (sp i)) :
    ∀ (l : List QueueFamilyProps) (idx : Nat) (g p : Option Nat),
      (g.isSome && p.isSome) = false →
      fqf_loop s d l idx g p =
        .ok (combine_queues (opt_first g (claim_first_graphics_from l idx))
                            (opt_first p (claim_first_present_from sp l idx))) := by
  intro l
  induction l with
  | nil =>
    intro idx g p h
    cases g <;> cases p <;>
      simp_all [fqf_loop, claim_first_graphics_from, claim_first_present_from,
        opt_first, combine_queues]
  | cons f rest ih =>
    intro idx g p h
    cases g <;> cases p <;> cases hfg : f.graphics <;> cases hsi : sp idx <;>
      simp_all [fqf_loop, hsp idx, claim_first_graphics_from, claim_first_present_from,
        opt_first, combine_queues, ih]

/-- C3 (amended): for every device whose reported queue families all have at
least one queue (as the underlying API guarantees) and whose per-family
present-support queries succeed, `find_queue_families` scans the family list
in index order, records the first graphics-capable index and, independently,
the first present-capable index, returns `none` unless both exist (they may
be equal), and the first match always wins. -/
theorem find_queue_families_spec (s : SurfaceCtx) (d : PhysicalDevice) (sp : Nat → Bool)
    (hcount : ∀ f ∈ s.queue_family_props d, 0 < f.queue_count)
    (hsp : ∀ i, s.surface_support d i = .ok (sp i)) :
    find_queue_families s d = .ok (claim_queue_families (s.queue_family_props d) sp) := by
  have hfilter : (s.queue_family_props d).filter (fun f => decide (0 < f.queue_count)) =
      s.queue_family_props d := by
    rw [List.filter_eq_self]
    intro a ha
    simpa using hcount a ha
  unfold find_queue_families
  rw [hfilter, fqf_loop_eq_claim s d sp hsp (s.queue_family_props d) 0 none none rfl]
  rfl

/-- C3 witness: two single-queue families, the second graphics-capable,
presentation supported only by family 0 — the scan records graphics index 1
and present index 0. -/
theorem find_queue_families_spec_witness :
    (∀ f ∈ env_two_families.queue_family_props 0, 0 < f.queue_count) ∧
    find_queue_families env_two_families 0 = .ok (some (1, 0)) := by
  refine ⟨by decide, ?_⟩
  rw [find_queue_families_spec env_two_families 0 (fun i => decide (i = 0))
    (by decide) (fun i => rfl)]
  rfl

/-- C3 counterexample: with a zero-queue-count family listed ahead of the
graphics family, the code scans positions of the *filtered* list, queries
present support at the shifted index, and returns `.ok none`, while the
claim's index-order scan of the device's queue-family list yields
`some (1, 1)`. -/
theorem find_queue_families_cex :
    claim_queue_families (env_zero_count.queue_family_props 0) (fun i => decide (i = 1)) =
      some (1, 1) ∧
    find_queue_families env_zero_count 0 = .ok none ∧
    ¬ (find_queue_families env_zero_count 0 =
        .ok (claim_queue_families (env_zero_count.queue_family_props 0) (fun i => decide (i = 1)))) := by
  refine ⟨rfl, rfl, fun hcontra => ?_⟩
  have h1 : find_queue_families env_zero_count 0 = .ok none := rfl
  rw [h1] at hcontra
  exact Option.noConfusion (Except.ok.inj hcontra)

/-!
## Claim theorems: deduplicated family indices
-/

/-- C5: when `find_queue_families` yields `some (g, p)` and the candidate is
accepted, the produced `PhysicalDeviceInfo` has a single-element deduplicated
family-index list `[g]` when `g = p`, and otherwise a two-element list in
which each of the two indices appears exactly once. -/
theorem dedup_family_indices_spec (s : SurfaceCtx) (req : List ExtName)
    (d : PhysicalDevice) (g p : Nat) (info : PhysicalDeviceInfo)
    (_hq : find_queue_families s d = .ok (some (g, p)))
    (heval : eval_candidate s req d (some (g, p)) = some info) :
    (g = p → info.dedup_family_indices = [g]) ∧
    (g ≠ p → info.dedup_family_indices.length = 2 ∧
      info.dedup_family_indices.count g = 1 ∧ info.dedup_family_indices.count p = 1) := by
  rw [eval_candidate_some_eq heval]
  constructor
  · intro hgp
    simp [dedup_family_indices, hgp]
  · intro hgp
    simp only [dedup_family_indices, if_neg hgp]
    refine ⟨rfl, ?_, ?_⟩
    · simp [List.count_cons, hgp, Ne.symm hgp]
    · simp [List.count_cons, hgp, Ne.symm hgp]

/-- C5 witness: device 1 of the all-adequate environment has coinciding
graphics and present family 0, and its produced info carries the
single-element list `[0]`. -/
theorem dedup_family_indices_spec_witness :
    (0 = 0 → info_device1.dedup_family_indices = [0]) ∧
    ((0 : Nat) ≠ 0 → info_device1.dedup_family_indices.length = 2 ∧
      info_device1.dedup_family_indices.count 0 = 1 ∧
      info_device1.dedup_family_indices.count 0 = 1) :=
  dedup_family_indices_spec env_ok get_required_device_extensions 1 0 0 info_device1 rfl rfl

/-!
## Claim theorems: logical-context creation
-/

/-- C6: `create_logical_device` builds exactly one queue-creation descriptor
per deduplicated family index, each requesting a single queue at maximum
priority 1, and requests the logical context with the required extension
set, the baseline feature set (no optional features), the instance layers,
and the memory-model consistency feature forced on. -/
theorem create_info_spec (info : PhysicalDeviceInfo) (layers : List LayerName)
    (req : List ExtName) :
    (mk_device_create_info info layers req).queue_create_infos =
      info.dedup_family_indices.map (fun index =>
        { queue_family_index := index, queue_priorities := [(1 : Rat)] }) ∧
    (∀ q ∈ (mk_device_create_info info layers req).queue_create_infos,
        q.queue_priorities = [(1 : Rat)]) ∧
    (mk_device_create_info info layers req).enabled_extension_names = req ∧
    (mk_device_create_info info layers req).enabled_features = PhysicalDeviceFeatures.baseline ∧
    (mk_device_create_info info layers req).enabled_layer_names = layers ∧
    (mk_device_create_info info layers req).vulkan_memory_model = true ∧
    ∀ s : SurfaceCtx, create_logical_device s info layers req =
      match s.create_device info.device (mk_device_create_info info layers req) with
      | .error e => .error e
      | .ok device => .ok
          { device := device
          , graphics_queue := s.get_device_queue device info.graphics_family_index 0
          , present_queue := s.get_device_queue device info.present_family_index 0 } := by
  refine ⟨rfl, ?_, rfl, rfl, rfl, rfl, fun s => rfl⟩
  intro q hq
  simp only [mk_device_create_info, List.mem_map] at hq
  obtain ⟨i, _, hqe⟩ := hq
  rw [← hqe]
  rfl

/-- C7: with an empty physical-device enumeration, selection fails with
`noSuitableDevice`, `DeviceCtx::new` fails the same way, and no
logical-context creation is ever attempted: the outcome is identical for
every possible `create_device` oracle. -/
theorem empty_enumeration_no_device (s : SurfaceCtx)
    (h : s.enumerate_physical_devices = .ok []) :
    select_physical_device s get_required_device_extensions = .error .noSuitableDevice ∧
    DeviceCtx.new s = .error .noSuitableDevice ∧
    ∀ f, DeviceCtx.new { s with create_device := f } = .error .noSuitableDevice := by
  have hsel : select_physical_device s get_required_device_extensions =
      .error .noSuitableDevice := by
    unfold select_physical_device
    rw [h]
    rfl
  have hnew : DeviceCtx.new s = .error .noSuitableDevice := by
    unfold DeviceCtx.new
    rw [hsel]
  refine ⟨hsel, hnew, fun f => ?_⟩
  have h2 : ({ s with create_device := f } : SurfaceCtx).enumerate_physical_devices =
      .ok [] := h
  have hsel2 : select_physical_device { s with create_device := f }
      get_required_device_extensions = .error .noSuitableDevice := by
    unfold select_physical_device
    rw [h2]
    rfl
  unfold DeviceCtx.new
  rw [hsel2]

/-- C7 witness: the base environment enumerates no devices. -/
theorem empty_enumeration_no_device_witness :
    DeviceCtx.new base_env = .error .noSuitableDevice :=
  (empty_enumeration_no_device base_env rfl).2.1

/-!
## Claim theorems: probe purity and queue handles
-/

/-- C9: two immediately successive `current_swapchain_support` calls with no
intervening state change (the probe reads the context through a shared
reference and mutates nothing, so the driver responses are unchanged) return
identical format sets and identical present-mode sets. -/
theorem swapchain_support_idempotent (ctx : DeviceCtx) (s1 s2 : SwapchainSupportDetails)
    (h1 : ctx.current_swapchain_support = .ok s1)
    (h2 : ctx.current_swapchain_support = .ok s2) :
    s1.formats = s2.formats ∧ s1.present_modes = s2.present_modes := by
  rw [h1] at h2
  injection h2 with h
  rw [h]
  exact ⟨rfl, rfl⟩

/-- C9 witness: both probe calls on the base context return the same details. -/
theorem swapchain_support_idempotent_witness :
    ctx_base.current_swapchain_support = .ok ssd_base ∧
    (ssd_base.formats = ssd_base.formats ∧ ssd_base.present_modes = ssd_base.present_modes) :=
  ⟨rfl, swapchain_support_idempotent ctx_base ssd_base ssd_base rfl rfl⟩

/-- C10: when the selected info's graphics and present family indices
coincide, the two queue handles retrieved by `create_logical_device` are the
identical handle, both being fetched from that family at queue index 0. -/
theorem same_family_same_queue (s : SurfaceCtx) (info : PhysicalDeviceInfo)
    (layers : List LayerName) (req : List ExtName) (ldi : LogicalDeviceInfo)
    (hfam : info.graphics_family_index = info.present_family_index)
    (hok : create_logical_device s info layers req = .ok ldi) :
    ldi.graphics_queue = ldi.present_queue := by
  unfold create_logical_device at hok
  cases hcd : s.create_device info.device (mk_device_create_info info layers req) with
  | error e =>
    rw [hcd] at hok
    exact Except.noConfusion hok
  | ok dev =>
    rw [hcd] at hok
    injection hok with h
    rw [← h, hfam]

/-- C10 witness: a physical-device info with coinciding family 2 yields equal
graphics and present queue handles. -/
theorem same_family_same_queue_witness :
    (LogicalDeviceInfo.mk 42 44 44).graphics_queue =
      (LogicalDeviceInfo.mk 42 44 44).present_queue :=
  same_family_same_queue base_env info_family2 [] get_required_device_extensions
    (LogicalDeviceInfo.mk 42 44 44) rfl rfl

end Rtrt
